import Mathlib

/-!
Verification of the vlfeat SIFT command-line driver (src/sift-driver.c).

The driver is shallowly embedded: the control flow of `save_gss` and of
`main`'s per-image processing is translated into pure Lean functions.
External collaborators (the SIFT detector, the PGM codec, the file system)
are modelled as oracles supplied through environment records, so that all
branches of the driver's own code are represented faithfully.

Scalar values that the driver merely copies (keypoint coordinates, angles,
descriptor entries) are carried as `Int`: the driver performs no arithmetic
on them, it only routes them to output records.  Scale-space samples are
carried as `Nat`, and the C narrowing cast `(vl_uint8) pt[i]` is modelled
as reduction modulo 256, matching the wrap-around documented for the
narrowing rule.
-/

namespace SiftDriver

/-- Error codes of the vl library (`VL_ERR_OK`, `VL_ERR_OVERFLOW`,
`VL_ERR_ALLOC`, `VL_ERR_BAD_ARG`, `VL_ERR_IO`, `VL_ERR_EOF`), carried as an
inductive instead of a C `int`; `ok` is the zero value, every other
constructor is nonzero. -/
inductive VlErr : Type
  | ok
  | overflow
  | alloc
  | badArg
  | io
  | eof
  deriving DecidableEq, Repr

/-- Numeric value of each error code, used only when the driver prints the
code in a diagnostic line. -/
def VlErr.code : VlErr → Nat
  | .ok => 0
  | .overflow => 1
  | .alloc => 2
  | .badArg => 3
  | .io => 4
  | .eof => 5

/-- Wire protocols of an output sink (`VL_PROT_ASCII`, `VL_PROT_BINARY`). -/
inductive Protocol : Type
  | ascii
  | binary
  deriving DecidableEq, Repr

/-- The `VlFileMeta` record of generic-driver.h: an output sink with an
active flag, a naming pattern, a protocol, the last resolved file name and
an open-handle flag (the C `FILE *` modelled as a `Bool`). -/
structure VlFileMeta : Type where
  active : Bool
  pattern : String
  protocol : Protocol
  name : String
  file : Bool
  deriving DecidableEq, Repr

/-- Kernel-friendly `String.take`: the first `n` characters of `s`. -/
def strTake (s : String) (n : Nat) : String :=
  String.mk (s.data.take n)

/-- Wildcard substitution on the character list of a pattern: every `%` is
replaced by the base name.  This is the name-derivation rule of the Output
Sink. -/
def substWildcard : List Char → String → String
  | [], _ => ""
  | c :: cs, b => (if c = ('%') then b else String.mk [c]) ++ substWildcard cs b

/-- Resolve a sink's naming pattern against a base name. -/
def resolveName (pattern basename : String) : String :=
  substWildcard pattern.data basename

/-- Modelled from the spec: `vl_file_meta_open` of generic-driver.h, which
is part of this repository but not under src/.  Per §4.2 of the spec: if
the sink is inactive this is a no-op returning success; otherwise the base
name is substituted into the pattern, `PathOverflowError` is returned when
the resolved path exceeds the maximum supported length (the driver's path
buffers are 1024 bytes), `IOError` when the file cannot be opened (an
external condition, supplied as the oracle flag `ioFail`), and on success
the sink records the resolved name and holds an open handle. -/
def vl_file_meta_open (fm : VlFileMeta) (basename : String) (ioFail : Bool) :
    VlErr × VlFileMeta :=
  if fm.active = false then (VlErr.ok, fm)
  else
    let resolved := resolveName fm.pattern basename
    if 1024 ≤ resolved.length then (VlErr.overflow, fm)
    else if ioFail then (VlErr.io, fm)
    else (VlErr.ok, { fm with name := resolved, file := true })

/-- Modelled from the spec: `vl_file_meta_close` of generic-driver.h, which
is part of this repository but not under src/.  Per §4.2: idempotent,
releases the handle if open, otherwise a no-op. -/
def vl_file_meta_close (fm : VlFileMeta) : VlFileMeta :=
  { fm with file := false }

/-- A SIFT keypoint as the driver sees it: the fields it reads (`x`, `y`,
`sigma`).  Opaque output of the external detector. -/
structure VlSiftKeypoint : Type where
  x : Int
  y : Int
  sigma : Int
  deriving DecidableEq, Repr

/-- A PGM image header as filled in by `save_gss` (`pim.width`,
`pim.height`, `pim.max_value`, `pim.is_raw`). -/
structure VlPgmImage : Type where
  width : Nat
  height : Nat
  maxValue : Nat
  isRaw : Bool
  deriving DecidableEq, Repr

/-- The view of the SIFT filter state that the driver reads during one
octave pass: `filt->S`, `filt->o_cur`, the octave width and height, the
scale-space planes (`vl_sift_get_octave`, addressed sample-wise), the
detector's keypoint list for this pass and the orientation and descriptor
oracles (`vl_sift_calc_keypoint_orientations`,
`vl_sift_calc_keypoint_descriptor`). -/
structure FiltOctave : Type where
  S : Nat
  o_cur : Int
  width : Nat
  height : Nat
  plane : Nat → Nat → Nat
  keys : List VlSiftKeypoint
  orients : VlSiftKeypoint → List Int
  descrOf : VlSiftKeypoint → Int → Fin 128 → Int

/-- One snapshot file written by `save_gss`: the name handed to the sink
open (base name plus suffix), the resolved file name, the PGM header and
the 8-bit pixel data. -/
structure GssFile : Type where
  derived : String
  resolved : String
  pim : VlPgmImage
  data : List Nat
  deriving DecidableEq, Repr

/-- Sink open/close events of the gss sink, in order. -/
inductive GssEvent : Type
  | opened : String → GssEvent
  | closed : GssEvent
  deriving DecidableEq, Repr

/-- External outcomes inside one `save_gss` call: whether the narrowing
buffer `malloc` succeeds, and per level whether the sink open and the
`vl_pgm_insert` write succeed. -/
structure GssEnv : Type where
  allocOk : Bool
  openFail : Nat → Bool
  insertErr : Nat → VlErr

/-- Result of running `save_gss`: the files written, the sink events, the
final sink state, whether the narrowing buffer was allocated, the value of
the local `err` at the `save_gss_quit` label (`none` = never assigned), and
the value the function returns to its caller.  `ret = none` records that
the function falls off its closing brace without a `return` statement, so
the caller reads an indeterminate value; the only `return` in the source is
the early `return VL_ERR_OK` for an inactive sink. -/
structure SaveGssOut : Type where
  files : List GssFile
  events : List GssEvent
  fm : VlFileMeta
  allocated : Bool
  errAtQuit : Option VlErr
  ret : Option VlErr

/-- The `save_gss_quit` label (sift-driver.c lines 147-150): free the
buffer, close the sink, and fall off the end of the function with no
return value. -/
def saveGssQuit (o : SaveGssOut) : SaveGssOut :=
  { o with fm := vl_file_meta_close o.fm,
           events := o.events ++ [GssEvent.closed],
           ret := none }

/-- The `"_%02d_%03d"` suffix pieces: zero-padded decimal of minimum field
width `w`, sign counted inside the width as C printf does. -/
def padNum (w : Nat) (n : Int) : String :=
  if n < 0 then
    let digits := Nat.repr n.natAbs
    ("-") ++ String.mk (List.replicate (w - (digits.length + 1)) ('0')) ++ digits
  else
    let digits := Nat.repr n.natAbs
    String.mk (List.replicate (w - digits.length) ('0')) ++ digits

/-- The per-level suffix `snprintf(..., "_%02d_%03d", o, s)`. -/
def gssSuffix (o : Int) (s : Nat) : String :=
  ("_") ++ padNum 2 o ++ ("_") ++ padNum 3 (Int.ofNat s)

/-- The derived per-level name: the base name (already checked to fit the
1024-byte buffer) with the suffix written at its end, truncated to the
buffer as `snprintf` does. -/
def gssLevelName (basename : String) (o : Int) (s : Nat) : String :=
  strTake (basename ++ gssSuffix o s) 1023

/-- The body of the `for (s = 0; s < S; ++s)` loop of `save_gss`
(lines 123-145), one recursive step per remaining level: narrow the level's
plane to 8 bits, derive the per-level name, open the sink (errors jump to
`save_gss_quit`), write the PGM image (errors jump to `save_gss_quit`),
close the sink, continue.  After the last level control falls into
`save_gss_quit`. -/
def saveGssLevels (filt : FiltOctave) (env : GssEnv) (basename : String)
    (pim : VlPgmImage) : List Nat → SaveGssOut → SaveGssOut
  | [], acc => saveGssQuit { acc with errAtQuit := some VlErr.ok }
  | s :: rest, acc =>
    let buffer := (List.range (filt.width * filt.height)).map
      (fun i => filt.plane s i % 256)
    let tmp := gssLevelName basename filt.o_cur s
    let opened := vl_file_meta_open acc.fm tmp (env.openFail s)
    if opened.1 ≠ VlErr.ok then
      saveGssQuit { acc with errAtQuit := some opened.1 }
    else
      let ev1 := acc.events ++ [GssEvent.opened opened.2.name]
      let acc1 : SaveGssOut := { acc with fm := opened.2, events := ev1 }
      let werr := env.insertErr s
      if werr ≠ VlErr.ok then
        saveGssQuit { acc1 with errAtQuit := some werr }
      else
        let newFile : GssFile :=
          { derived := tmp, resolved := acc1.fm.name, pim := pim,
            data := buffer }
        let fs2 := acc1.files ++ [newFile]
        let fm2 := vl_file_meta_close acc1.fm
        let ev2 := acc1.events ++ [GssEvent.closed]
        let acc2 : SaveGssOut :=
          { acc1 with files := fs2, fm := fm2, events := ev2,
                      errAtQuit := some VlErr.ok }
        saveGssLevels filt env basename pim rest acc2

/-- `save_gss` (sift-driver.c lines 86-150).  Inactive sink: immediate
`return VL_ERR_OK` before any allocation.  Otherwise: build the PGM header
from the octave's width and height, allocate the narrowing buffer
(`VL_ERR_ALLOC` on failure), copy the base name into the 1024-byte `tmp`
buffer (`VL_ERR_OVERFLOW` if it does not fit), then run the per-level loop.
Every path other than the inactive early return ends at `save_gss_quit`,
which returns no value. -/
def save_gss (filt : FiltOctave) (fm : VlFileMeta) (basename : String)
    (env : GssEnv) : SaveGssOut :=
  if fm.active = false then
    { files := [], events := [], fm := fm, allocated := false,
      errAtQuit := none, ret := some VlErr.ok }
  else
    let pim : VlPgmImage :=
      { width := filt.width, height := filt.height, maxValue := 255,
        isRaw := true }
    let start : SaveGssOut :=
      { files := [], events := [], fm := fm, allocated := true,
        errAtQuit := none, ret := none }
    if env.allocOk = false then
      saveGssQuit { start with errAtQuit := some VlErr.alloc }
    else
      let q := basename.length
      if 1024 ≤ q then
        saveGssQuit { start with errAtQuit := some VlErr.overflow }
      else
        saveGssLevels filt env basename pim (List.range filt.S) start

/-- One line of the frames output: `fprintf(frm.file, "%g %g %g %g\n",
keys->x, keys->y, keys->sigma, angles[q])`. -/
structure FrameRecord : Type where
  x : Int
  y : Int
  sigma : Int
  angle : Int
  deriving DecidableEq, Repr

/-- The frames records produced by one detection pass (sift-driver.c lines
507-521): the keypoint loop iterates `keys + k`, but the `fprintf` reads
`keys->x`, `keys->y`, `keys->sigma`, i.e. the fields of the FIRST keypoint
of the pass, while the angle is the current orientation `angles[q]` of the
current keypoint `keys[k]`. -/
def emitFrames (p : FiltOctave) : List FrameRecord :=
  match p.keys with
  | [] => []
  | k0 :: _ =>
    p.keys.flatMap (fun k => (p.orients k).map (fun a =>
      { x := k0.x, y := k0.y, sigma := k0.sigma, angle := a }))

/-- The descriptor records produced by one detection pass (lines 523-529):
one 128-entry line per (keypoint, orientation) pair, computed from the
current keypoint `keys + k` and angle `angles[q]`. -/
def emitDescrs (p : FiltOctave) : List (List Int) :=
  p.keys.flatMap (fun k => (p.orients k).map (fun a => List.ofFn (p.descrOf k a)))

/-- Output accumulated while the octave loop runs: the per-sink record
streams, the gss snapshot files and events, and the current gss sink
state. -/
structure LoopAcc : Type where
  frames : List FrameRecord
  descrs : List (List Int)
  gssFiles : List GssFile
  gssEvents : List GssEvent
  gss : VlFileMeta

/-- The detect-and-emit body of one octave (lines 497-531): run the
detector, then for each keypoint and each of its orientations compute the
descriptor and append one frames record if the frames sink is active and
one descriptors record if the descriptors sink is active. -/
def detectEmit (p : FiltOctave) (frmA dscA : Bool) (acc : LoopAcc) : LoopAcc :=
  { acc with
    frames := acc.frames ++ (if frmA then emitFrames p else []),
    descrs := acc.descrs ++ (if dscA then emitDescrs p else []) }

/-- The `while (1)` octave loop of `main` (lines 466-532).  The external
detector is modelled by the list of octave passes it successfully advances
through; `stopErr` is the nonzero error code its next advance call returns
after the last pass (`vl_sift_process_first_octave` on the first iteration,
`vl_sift_process_next_octave` afterwards).  When a pass is available: if
the gss sink is active, call `save_gss` and test the value it returns —
because `save_gss` has no return statement, that value is indeterminate and
is supplied by the oracle `garb`; a nonzero value aborts the image with the
GSS diagnostic (`goto done`).  Then detect and emit.  When the advance
fails, the driver executes `if (err) { err = VL_ERR_OK ; break ; }`:
whatever nonzero error the advance produced is discarded and the loop exits
cleanly. -/
def octaveLoop (basename : String) (frmA dscA : Bool) (gssEnv : Nat → GssEnv)
    (garb : Nat → VlErr) (stopErr : VlErr) :
    List FiltOctave → Nat → LoopAcc → LoopAcc × VlErr × Option String
  | [], _, acc =>
    -- the advance call returned the nonzero `stopErr`; the driver runs
    -- `err = VL_ERR_OK ; break ;`, discarding which error occurred
    (acc, VlErr.ok, none)
  | p :: rest, i, acc =>
    if acc.gss.active then
      let o := save_gss p acc.gss basename (gssEnv i)
      let acc1 : LoopAcc :=
        { acc with gss := o.fm, gssFiles := acc.gssFiles ++ o.files,
                   gssEvents := acc.gssEvents ++ o.events }
      let e := o.ret.getD (garb i)
      if e ≠ VlErr.ok then
        (acc1, e, some ("Could not write GSS level to PGM file."))
      else
        octaveLoop basename frmA dscA gssEnv garb stopErr rest (i + 1)
          (detectEmit p frmA dscA acc1)
    else
      octaveLoop basename frmA dscA gssEnv garb stopErr rest (i + 1)
        (detectEmit p frmA dscA acc)

/-- The per-image resources of `main`'s loop body: the input `FILE *`, the
`data` and `fdata` buffers, the SIFT filter, and the four sinks.  A `true`
flag means the resource is currently held. -/
structure ProcState : Type where
  inOpen : Bool
  data : Bool
  fdata : Bool
  filt : Bool
  frm : VlFileMeta
  dsc : VlFileMeta
  met : VlFileMeta
  gss : VlFileMeta

/-- The `done:` label of `main` (lines 549-571): delete the filter, free
`data`, close the input file, and close the four sinks.  Note that the
`fdata` buffer is NOT freed there (the source leaks it); the model keeps
its flag untouched. -/
def doneCleanup (st : ProcState) : ProcState :=
  { st with filt := false, data := false, inOpen := false,
            frm := vl_file_meta_close st.frm,
            dsc := vl_file_meta_close st.dsc,
            met := vl_file_meta_close st.met,
            gss := vl_file_meta_close st.gss }

/-- The meta block written when the meta sink is active (lines 536-546):
the input name, and the resolved descriptors/frames names, each present
only when the corresponding sink is active. -/
structure MetaBlock : Type where
  input : String
  descrName : Option String
  frameName : Option String
  deriving DecidableEq, Repr

/-- External outcomes during the processing of one image: the basename
derivation (`vl_string_basename` overflow and resulting base name), whether
`fopen` succeeds, per-sink open failures, the PGM header and body results,
the buffer allocations, the filter construction, the detector's successful
octave passes followed by the nonzero advance error ending the loop, the
per-pass `save_gss` environments, and per pass the indeterminate value the
caller reads from `save_gss`'s missing return. -/
structure ImageEnv : Type where
  basenameOver : Bool
  basename : String
  inOpens : Bool
  dscIoFail : Bool
  frmIoFail : Bool
  metIoFail : Bool
  headOk : Bool
  dataOk : Bool
  fdataOk : Bool
  bodyErr : VlErr
  filtOk : Bool
  passes : List FiltOctave
  stopErr : VlErr
  gssEnv : Nat → GssEnv
  gssGarbage : Nat → VlErr

/-- Result of processing one image: the final error and message tested at
the `done:` label, the record streams written to each sink, the meta block,
the file each primary sink created this image (`none` when the sink was
inactive or its open failed), and the resource state after cleanup. -/
structure ImageOut : Type where
  err : VlErr
  errMsg : Option String
  frames : List FrameRecord
  descrs : List (List Int)
  gssFiles : List GssFile
  gssEvents : List GssEvent
  meta : Option MetaBlock
  dscOpened : Option String
  frmOpened : Option String
  metOpened : Option String
  final : ProcState

/-- Assemble an `ImageOut`, running the `done:` cleanup on the current
resource state. -/
def mkOut (st : ProcState) (e : VlErr) (msg : Option String) (acc : LoopAcc)
    (meta : Option MetaBlock) (dscO frmO metO : Option String) : ImageOut :=
  { err := e, errMsg := msg, frames := acc.frames, descrs := acc.descrs,
    gssFiles := acc.gssFiles, gssEvents := acc.gssEvents, meta := meta,
    dscOpened := dscO, frmOpened := frmO, metOpened := metO,
    final := doneCleanup st }

/-- The file created by a primary-sink open: the resolved name when the
open succeeded on an active sink, `none` otherwise. -/
def openedFile (before : VlFileMeta) (res : VlErr × VlFileMeta) :
    Option String :=
  if res.1 = VlErr.ok ∧ before.active = true then some res.2.name else none

/-- An empty record accumulator over a given gss sink state. -/
def emptyAcc (g : VlFileMeta) : LoopAcc :=
  { frames := [], descrs := [], gssFiles := [], gssEvents := [], gss := g }

/-- The octave loop and meta-block stage of the per-image processing
(lines 464-546): run the `while (1)` loop from a fresh accumulator over the
current gss sink; a loop failure (a nonzero value read back from
`save_gss`) jumps to `done:` with the GSS diagnostic, otherwise the meta
block is written when the meta sink is active and the image succeeds. -/
def runOctaves (name : String) (st : ProcState) (env : ImageEnv)
    (dscO frmO metO : Option String) : ImageOut :=
  let lr := octaveLoop env.basename st.frm.active st.dsc.active env.gssEnv
    env.gssGarbage env.stopErr env.passes 0 (emptyAcc st.gss)
  let st7 : ProcState := { st with gss := lr.1.gss }
  if lr.2.1 ≠ VlErr.ok then
    mkOut st7 lr.2.1 lr.2.2 lr.1 none dscO frmO metO
  else
    let meta : Option MetaBlock :=
      if st7.met.active then
        some { input := name,
               descrName := if st7.dsc.active then some st7.dsc.name else none,
               frameName := if st7.frm.active then some st7.frm.name else none }
      else none
    mkOut st7 VlErr.ok none lr.1 meta dscO frmO metO

/-- The image-reading stage (lines 410-462), entered with the input file
open and the three primary sinks opened: extract the PGM header, allocate
the `data` and `fdata` buffers, extract the PGM body, construct the SIFT
filter; each failure jumps to `done:` with the source's diagnostic, and
success enters the octave loop. -/
def readAndFilter (name : String) (st : ProcState) (env : ImageEnv)
    (dscO frmO metO : Option String) : ImageOut :=
  if env.headOk = false then
    mkOut st VlErr.io (some ("PGM header corrputed."))
      (emptyAcc st.gss) none dscO frmO metO
  else
    let st5 : ProcState := { st with data := env.dataOk, fdata := env.fdataOk }
    if env.dataOk = false ∨ env.fdataOk = false then
      mkOut st5 VlErr.alloc (some ("Could not allocate enough memory."))
        (emptyAcc st.gss) none dscO frmO metO
    else if env.bodyErr ≠ VlErr.ok then
      mkOut st5 env.bodyErr (some ("PGM body corrputed."))
        (emptyAcc st.gss) none dscO frmO metO
    else if env.filtOk = false then
      mkOut st5 VlErr.alloc (some ("Could not allocate SIFT filter."))
        (emptyAcc st.gss) none dscO frmO metO
    else
      runOctaves name { st5 with filt := true } env dscO frmO metO

/-- The output-sink opening stage (lines 399-408): open the descriptors,
frames and meta sinks against the image's base name, in that order; the
`WERR` macro turns an overflow into "Output file name too long." and any
other failure into "Could not open ... for writing.", jumping to `done:`. -/
def openSinks (name : String) (st : ProcState) (env : ImageEnv) : ImageOut :=
  let od := vl_file_meta_open st.dsc env.basename env.dscIoFail
  let dscO := openedFile st.dsc od
  let st2 : ProcState := { st with dsc := od.2 }
  if od.1 = VlErr.overflow then
    mkOut st2 VlErr.overflow (some ("Output file name too long."))
      (emptyAcc st2.gss) none dscO none none
  else if od.1 ≠ VlErr.ok then
    mkOut st2 od.1
      (some (("Could not open '") ++ od.2.name ++ ("' for writing.")))
      (emptyAcc st2.gss) none dscO none none
  else
    let ofr := vl_file_meta_open st2.frm env.basename env.frmIoFail
    let frmO := openedFile st2.frm ofr
    let st3 : ProcState := { st2 with frm := ofr.2 }
    if ofr.1 = VlErr.overflow then
      mkOut st3 VlErr.overflow (some ("Output file name too long."))
        (emptyAcc st3.gss) none dscO frmO none
    else if ofr.1 ≠ VlErr.ok then
      mkOut st3 ofr.1
        (some (("Could not open '") ++ ofr.2.name ++ ("' for writing.")))
        (emptyAcc st3.gss) none dscO frmO none
    else
      let om := vl_file_meta_open st3.met env.basename env.metIoFail
      let metO := openedFile st3.met om
      let st4 : ProcState := { st3 with met := om.2 }
      if om.1 = VlErr.overflow then
        mkOut st4 VlErr.overflow (some ("Output file name too long."))
          (emptyAcc st4.gss) none dscO frmO metO
      else if om.1 ≠ VlErr.ok then
        mkOut st4 om.1
          (some (("Could not open '") ++ om.2.name ++ ("' for writing.")))
          (emptyAcc st4.gss) none dscO frmO metO
      else
        readAndFilter name st4 env dscO frmO metO

/-- The body of `main`'s per-image loop (lines 343-581), from basename
derivation to the `done:` cleanup: derive the base name (overflow is fatal
to this image), open the input file for reading, then run the
sink-opening, image-reading and octave-loop stages.  Every failure path
jumps to the cleanup with the error and diagnostic message the source sets
there. -/
def processImage (name : String) (frm dsc met gss : VlFileMeta)
    (env : ImageEnv) : ImageOut :=
  let st0 : ProcState :=
    { inOpen := false, data := false, fdata := false, filt := false,
      frm := frm, dsc := dsc, met := met, gss := gss }
  if env.basenameOver then
    mkOut st0 VlErr.overflow
      (some (("Basename of '") ++ name ++ ("' is too long")))
      (emptyAcc gss) none none none none
  else if env.inOpens = false then
    mkOut st0 VlErr.io
      (some (("Could not open '") ++ name ++ ("' for reading.")))
      (emptyAcc gss) none none none none
  else
    openSinks name { st0 with inOpen := true } env

/-- The stderr diagnostic printed at the end of a failed image (lines
574-581): `fprintf(stderr, "sift: err: %s (%d)\n", err_msg, err)`, one
line. -/
def diagLine (msg : String) (e : VlErr) : String :=
  ("sift: err: ") ++ msg ++ (" (") ++ Nat.repr e.code ++ (")")

/-- Result of the batch loop: the per-image results in input order, the
stderr lines, the final exit code, and the final sink states. -/
structure BatchOut : Type where
  results : List ImageOut
  stderrLines : List String
  exit_code : Nat
  frm : VlFileMeta
  dsc : VlFileMeta
  met : VlFileMeta
  gss : VlFileMeta

/-- The `while (argc--)` batch loop of `main` (lines 343-582): process each
input image in turn, threading the sink records (which persist across
images) and the exit code; a failed image prints one diagnostic line and
sets `exit_code = 1`, and the loop continues with the next image. -/
def runBatch (frm dsc met gss : VlFileMeta) (ec : Nat) :
    List (String × ImageEnv) → BatchOut
  | [] =>
    { results := [], stderrLines := [], exit_code := ec,
      frm := frm, dsc := dsc, met := met, gss := gss }
  | (name, env) :: rest =>
    let r := processImage name frm dsc met gss env
    let ec1 := if r.err ≠ VlErr.ok then 1 else ec
    let lines := if r.err ≠ VlErr.ok
      then [diagLine (r.errMsg.getD ("")) r.err] else []
    let b := runBatch r.final.frm r.final.dsc r.final.met r.final.gss ec1 rest
    { b with results := r :: b.results, stderrLines := lines ++ b.stderrLines }

/-- Initial state of the frames sink (line 169):
`VlFileMeta frm = {1, "%.frame", VL_PROT_ASCII, "", 0}`. -/
def frm0 : VlFileMeta :=
  { active := true, pattern := "%.frame", protocol := Protocol.ascii,
    name := "", file := false }

/-- Initial state of the descriptors sink (line 170):
`VlFileMeta dsc = {0, "%.descr", VL_PROT_ASCII, "", 0}`. -/
def dsc0 : VlFileMeta :=
  { active := false, pattern := "%.descr", protocol := Protocol.ascii,
    name := "", file := false }

/-- Initial state of the meta sink (line 171):
`VlFileMeta met = {0, "%.meta", VL_PROT_ASCII, "", 0}`. -/
def met0 : VlFileMeta :=
  { active := false, pattern := "%.meta", protocol := Protocol.ascii,
    name := "", file := false }

/-- Initial state of the gss sink (line 172):
`VlFileMeta gss = {0, "%.pgm", VL_PROT_ASCII, "", 0}`. -/
def gss0 : VlFileMeta :=
  { active := false, pattern := "%.pgm", protocol := Protocol.ascii,
    name := "", file := false }

/-- Initial state of the read-frames sink (line 173):
`VlFileMeta ifr = {0, "%.frame", VL_PROT_ASCII, "", 0}`. -/
def ifr0 : VlFileMeta :=
  { active := false, pattern := "%.frame", protocol := Protocol.ascii,
    name := "", file := false }

/-- Leading-segment test on character lists: does the first list open the
second one? -/
def charsLead : List Char → List Char → Bool
  | [], _ => true
  | _ :: _, [] => false
  | c :: cs, d :: ds => c = d && charsLead cs ds

/-- Leading-segment test on strings, on their character lists. -/
def strLead (p s : String) : Bool :=
  charsLead p.data s.data

/-- Occurrence test: does the first character list occur contiguously
anywhere in the second? -/
def containsSeq (pat : List Char) : List Char → Bool
  | [] => pat.isEmpty
  | d :: rest => charsLead pat (d :: rest) || containsSeq pat rest

/-- Kernel-friendly `String.drop`: the string without its first `n`
characters. -/
def strDrop (s : String) (n : Nat) : String :=
  String.mk (s.data.drop n)

/-- Modelled from the spec: `vl_file_meta_parse` of generic-driver.h, which
is part of this repository but not under src/.  Per §4.2 of the spec, it
parses a compact specification combining a naming pattern and an optional
protocol tag, fails (`ConfigError`, the driver's `VL_ERR_BAD_ARG` family)
on an unrecognized protocol tag or an oversized pattern, and otherwise
yields the sink marked active: a leading `ascii://` or `bin://` tag selects
the protocol, an absent tag keeps the sink's current protocol, any other
`<tag>://` tag is rejected, and a nonempty remainder replaces the naming
pattern. -/
def vl_file_meta_parse (fm : VlFileMeta) (spec : Option String) :
    Except Unit VlFileMeta :=
  match spec with
  | none => Except.ok { fm with active := true }
  | some s =>
    let tagged :=
      if strLead ("ascii://") s then
        Except.ok (some Protocol.ascii, strDrop s 8)
      else if strLead ("bin://") s then
        Except.ok (some Protocol.binary, strDrop s 6)
      else if containsSeq (("://").data) s.data then
        Except.error ()
      else
        Except.ok (none, s)
    match tagged with
    | Except.error () => Except.error ()
    | Except.ok (prot, rest) =>
      if 1024 ≤ rest.length then Except.error ()
      else
        Except.ok
          { fm with active := true,
                    protocol := prot.getD fm.protocol,
                    pattern := if rest.length = 0 then fm.pattern else rest }

/-- Outcome of the start-up phase of `main`: either an option-parsing error
(diagnostic on stderr, `exit(1)` before any image is processed), or the
batch run over the input images. -/
structure MainOut : Type where
  exit_code : Nat
  imagesProcessed : Nat
  stderrLines : List String

/-- The `--meta` option handler (lines 237-245) followed by the
parsing-error check (lines 313-319) and, absent an error, the batch loop:
parse the `--meta` argument into the meta sink; a parse failure or a
parsed protocol other than ASCII sets a configuration error, which `main`
reports to stderr and turns into `exit(1)` before the image loop runs. -/
def mainWithMetaOpt (metArg : Option (Option String))
    (images : List (String × ImageEnv)) : MainOut :=
  match metArg with
  | none =>
    let b := runBatch frm0 dsc0 met0 gss0 0 images
    { exit_code := b.exit_code, imagesProcessed := b.results.length,
      stderrLines := b.stderrLines }
  | some arg =>
    match vl_file_meta_parse met0 arg with
    | Except.error () =>
      { exit_code := 1, imagesProcessed := 0,
        stderrLines := [("sift: error: the arguments of --meta are invalid")] }
    | Except.ok met1 =>
      if met1.protocol ≠ Protocol.ascii then
        { exit_code := 1, imagesProcessed := 0,
          stderrLines := [("sift: error: meta file supports only ASCII protocol")] }
      else
        let b := runBatch frm0 dsc0 met1 gss0 0 images
        { exit_code := b.exit_code, imagesProcessed := b.results.length,
          stderrLines := b.stderrLines }

/-! ## Helper lemmas -/

theorem open_inactive (fm : VlFileMeta) (b : String) (i_ : Bool)
    (h : fm.active = false) : vl_file_meta_open fm b i_ = (VlErr.ok, fm) := by
  simp [vl_file_meta_open, h]

theorem open_active_eq (fm : VlFileMeta) (b : String) (i_ : Bool) :
    ((vl_file_meta_open fm b i_).2).active = fm.active := by
  simp only [vl_file_meta_open]
  split
  · rfl
  · split
    · rfl
    · split <;> rfl

theorem close_active (fm : VlFileMeta) :
    (vl_file_meta_close fm).active = fm.active := rfl

theorem close_file (fm : VlFileMeta) :
    (vl_file_meta_close fm).file = false := rfl

theorem openedFile_inactive (fm : VlFileMeta) (res : VlErr × VlFileMeta)
    (h : fm.active = false) : openedFile fm res = none := by
  simp [openedFile, h]

theorem open_ok_of_good (fm : VlFileMeta) (b : String)
    (hlen : (resolveName fm.pattern b).length < 1024) :
    vl_file_meta_open fm b false = (VlErr.ok,
      if fm.active then { fm with name := resolveName fm.pattern b, file := true }
      else fm) := by
  unfold vl_file_meta_open
  rcases h : fm.active with _ | _ <;> simp [h, Nat.not_le.mpr hlen]

theorem saveGssLevels_fm_active (filt : FiltOctave) (env : GssEnv)
    (b : String) (pim : VlPgmImage) (ls : List Nat) (acc : SaveGssOut) :
    ((saveGssLevels filt env b pim ls acc).fm).active = acc.fm.active := by
  induction ls generalizing acc with
  | nil => simp [saveGssLevels, saveGssQuit, close_active]
  | cons s rest ih =>
    simp only [saveGssLevels]
    split
    · simp [saveGssQuit, close_active]
    · split
      · simp [saveGssQuit, close_active, open_active_eq]
      · rw [ih]
        simp [close_active, open_active_eq]

theorem save_gss_fm_active (filt : FiltOctave) (fm : VlFileMeta)
    (b : String) (env : GssEnv) :
    ((save_gss filt fm b env).fm).active = fm.active := by
  simp only [save_gss]
  split
  · rfl
  · split
    · simp [saveGssQuit, close_active]
    · split
      · simp [saveGssQuit, close_active]
      · rw [saveGssLevels_fm_active]

theorem save_gss_inactive (filt : FiltOctave) (fm : VlFileMeta) (b : String)
    (env : GssEnv) (h : fm.active = false) :
    save_gss filt fm b env =
      { files := [], events := [], fm := fm, allocated := false,
        errAtQuit := none, ret := some VlErr.ok } := by
  simp [save_gss, h]

theorem detectEmit_gss (p : FiltOctave) (fA dA : Bool) (acc : LoopAcc) :
    (detectEmit p fA dA acc).gss = acc.gss := rfl

theorem detectEmit_gssFiles (p : FiltOctave) (fA dA : Bool) (acc : LoopAcc) :
    (detectEmit p fA dA acc).gssFiles = acc.gssFiles := rfl

theorem detectEmit_gssEvents (p : FiltOctave) (fA dA : Bool) (acc : LoopAcc) :
    (detectEmit p fA dA acc).gssEvents = acc.gssEvents := rfl

/-- With the gss sink inactive, the octave loop is the plain detect-emit
fold over the passes and always exits normally. -/
theorem octaveLoop_gss_inactive (b : String) (fA dA : Bool)
    (ge : Nat → GssEnv) (garb : Nat → VlErr) (se : VlErr)
    (ps : List FiltOctave) (i : Nat) (acc : LoopAcc)
    (h : acc.gss.active = false) :
    octaveLoop b fA dA ge garb se ps i acc =
      (ps.foldl (fun a p => detectEmit p fA dA a) acc, VlErr.ok, none) := by
  induction ps generalizing i acc with
  | nil => simp [octaveLoop]
  | cons p rest ih =>
    simp only [octaveLoop, h, Bool.false_eq_true, if_false, List.foldl_cons]
    exact ih (i + 1) (detectEmit p fA dA acc) (by rw [detectEmit_gss]; exact h)

theorem foldl_detectEmit_fields (fA dA : Bool) (ps : List FiltOctave)
    (acc : LoopAcc) :
    (ps.foldl (fun a p => detectEmit p fA dA a) acc).frames =
        acc.frames ++ ps.flatMap (fun p => if fA then emitFrames p else []) ∧
      (ps.foldl (fun a p => detectEmit p fA dA a) acc).descrs =
        acc.descrs ++ ps.flatMap (fun p => if dA then emitDescrs p else []) ∧
      (ps.foldl (fun a p => detectEmit p fA dA a) acc).gssFiles =
        acc.gssFiles ∧
      (ps.foldl (fun a p => detectEmit p fA dA a) acc).gssEvents =
        acc.gssEvents ∧
      (ps.foldl (fun a p => detectEmit p fA dA a) acc).gss = acc.gss := by
  induction ps generalizing acc with
  | nil => simp
  | cons p rest ih =>
    obtain ⟨h1, h2, h3, h4, h5⟩ := ih (detectEmit p fA dA acc)
    simp only [List.foldl_cons, List.flatMap_cons]
    refine ⟨?_, ?_, ?_, ?_, ?_⟩
    · rw [h1]
      simp [detectEmit]
    · rw [h2]
      simp [detectEmit]
    · rw [h3]
      simp [detectEmit]
    · rw [h4]
      simp [detectEmit]
    · rw [h5]
      simp [detectEmit]

/-- A frames sink that is inactive receives no record from the octave
loop. -/
theorem octaveLoop_frames_inactive (b : String) (dA : Bool)
    (ge : Nat → GssEnv) (garb : Nat → VlErr) (se : VlErr)
    (ps : List FiltOctave) (i : Nat) (acc : LoopAcc) :
    ((octaveLoop b false dA ge garb se ps i acc).1).frames = acc.frames := by
  induction ps generalizing i acc with
  | nil => simp [octaveLoop]
  | cons p rest ih =>
    simp only [octaveLoop]
    split
    · split
      · simp
      · rw [ih]
        simp [detectEmit]
    · rw [ih]
      simp [detectEmit]

/-- A descriptors sink that is inactive receives no record from the octave
loop. -/
theorem octaveLoop_descrs_inactive (b : String) (fA : Bool)
    (ge : Nat → GssEnv) (garb : Nat → VlErr) (se : VlErr)
    (ps : List FiltOctave) (i : Nat) (acc : LoopAcc) :
    ((octaveLoop b fA false ge garb se ps i acc).1).descrs = acc.descrs := by
  induction ps generalizing i acc with
  | nil => simp [octaveLoop]
  | cons p rest ih =>
    simp only [octaveLoop]
    split
    · split
      · simp
      · rw [ih]
        simp [detectEmit]
    · rw [ih]
      simp [detectEmit]

/-- The octave loop never changes whether the gss sink is active. -/
theorem octaveLoop_gss_active (b : String) (fA dA : Bool)
    (ge : Nat → GssEnv) (garb : Nat → VlErr) (se : VlErr)
    (ps : List FiltOctave) (i : Nat) (acc : LoopAcc) :
    ((octaveLoop b fA dA ge garb se ps i acc).1).gss.active =
      acc.gss.active := by
  induction ps generalizing i acc with
  | nil => simp [octaveLoop]
  | cons p rest ih =>
    simp only [octaveLoop]
    split
    · split
      · simp [save_gss_fm_active]
      · rw [ih]
        simp [detectEmit_gss, save_gss_fm_active]
    · rw [ih]
      simp [detectEmit_gss]

/-- After the `done:` cleanup: the detector, the pixel buffer and the input
handle are released and all four sinks are closed. -/
def CleanFinal (r : ImageOut) : Prop :=
  r.final.filt = false ∧ r.final.data = false ∧ r.final.inOpen = false ∧
    r.final.frm.file = false ∧ r.final.dsc.file = false ∧
    r.final.met.file = false ∧ r.final.gss.file = false

theorem mkOut_cleanup (st : ProcState) (e : VlErr) (msg : Option String)
    (acc : LoopAcc) (meta : Option MetaBlock) (a b c : Option String) :
    CleanFinal (mkOut st e msg acc meta a b c) := by
  simp [CleanFinal, mkOut, doneCleanup, vl_file_meta_close]

theorem runOctaves_cleanup (name : String) (st : ProcState) (env : ImageEnv)
    (dscO frmO metO : Option String) :
    CleanFinal (runOctaves name st env dscO frmO metO) := by
  simp only [runOctaves]
  split <;> apply mkOut_cleanup

theorem readAndFilter_cleanup (name : String) (st : ProcState)
    (env : ImageEnv) (dscO frmO metO : Option String) :
    CleanFinal (readAndFilter name st env dscO frmO metO) := by
  simp only [readAndFilter]
  repeat' split
  all_goals first
    | apply mkOut_cleanup
    | apply runOctaves_cleanup

theorem openSinks_cleanup (name : String) (st : ProcState) (env : ImageEnv) :
    CleanFinal (openSinks name st env) := by
  simp only [openSinks]
  repeat' split
  all_goals first
    | apply mkOut_cleanup
    | apply readAndFilter_cleanup

/-- C6: on every exit path of one image's processing — normal completion
and every fatal error (basename overflow, open failure, corrupt header or
body, allocation failure, detector-construction failure, snapshot failure)
— the `done:` cleanup leaves the frames, descriptors, meta and gss sinks
closed and the input file handle, the pixel buffer and the detector
released before the next image begins. -/
theorem c6_release_on_every_path (name : String) (frm dsc met gss : VlFileMeta)
    (env : ImageEnv) :
    CleanFinal (processImage name frm dsc met gss env) := by
  simp only [processImage]
  repeat' split
  all_goals first
    | apply mkOut_cleanup
    | apply openSinks_cleanup

theorem saveGssLevels_ret_none (filt : FiltOctave) (env : GssEnv)
    (b : String) (pim : VlPgmImage) (ls : List Nat) (acc : SaveGssOut) :
    (saveGssLevels filt env b pim ls acc).ret = none := by
  induction ls generalizing acc with
  | nil => simp [saveGssLevels, saveGssQuit]
  | cons s rest ih =>
    simp only [saveGssLevels]
    split
    · simp [saveGssQuit]
    · split
      · simp [saveGssQuit]
      · apply ih

/-- C2 (code bug): `save_gss` is declared `int` and its caller tests its
return value, but after the `save_gss_quit` cleanup the function ends with
no `return` statement.  Consequently, for every active gss sink the value
handed back to the caller is indeterminate (`ret = none`); in particular,
when the narrowing-buffer allocation fails the local error is
`VL_ERR_ALLOC` at the cleanup label yet is never returned, and
open/write errors are likewise computed into the local `err` and then
dropped. -/
theorem c2_save_gss_missing_return (filt : FiltOctave) (fm : VlFileMeta)
    (b : String) (env : GssEnv) (h : fm.active = true) :
    (save_gss filt fm b env).ret = none ∧
      (env.allocOk = false →
        (save_gss filt fm b env).errAtQuit = some VlErr.alloc) := by
  constructor
  · simp only [save_gss, h]
    split
    · simp_all
    · split
      · simp [saveGssQuit]
      · split
        · simp [saveGssQuit]
        · apply saveGssLevels_ret_none
  · intro hal
    simp [save_gss, h, hal, saveGssQuit]

/-- Closed witness for `c2_save_gss_missing_return`: a concrete active gss
sink with a failing buffer allocation, on which `save_gss` computes
`VL_ERR_ALLOC` into its local error yet returns no value. -/
theorem c2_save_gss_missing_return_witness :
    (save_gss
        { S := 1, o_cur := 0, width := 1, height := 1,
          plane := fun _ _ => 0, keys := [],
          orients := fun _ => [], descrOf := fun _ _ _ => 0 }
        { active := true, pattern := "%.pgm", protocol := Protocol.ascii,
          name := "", file := false }
        ("img")
        { allocOk := false, openFail := fun _ => false,
          insertErr := fun _ => VlErr.ok }).ret = none ∧
      (save_gss
        { S := 1, o_cur := 0, width := 1, height := 1,
          plane := fun _ _ => 0, keys := [],
          orients := fun _ => [], descrOf := fun _ _ _ => 0 }
        { active := true, pattern := "%.pgm", protocol := Protocol.ascii,
          name := "", file := false }
        ("img")
        { allocOk := false, openFail := fun _ => false,
          insertErr := fun _ => VlErr.ok }).errAtQuit = some VlErr.alloc := by
  refine ⟨(c2_save_gss_missing_return _ _ _ _ rfl).1, ?_⟩
  exact (c2_save_gss_missing_return _ _ _ _ rfl).2 rfl

theorem open_ok_active (fm : VlFileMeta) (b : String) (ha : fm.active = true)
    (hlen : (resolveName fm.pattern b).length < 1024) :
    vl_file_meta_open fm b false =
      (VlErr.ok, { fm with name := resolveName fm.pattern b, file := true }) := by
  simp [vl_file_meta_open, ha, Nat.not_le.mpr hlen]

/-- The 8-bit narrowing of one scale-space plane, sample-wise over the
octave's width-by-height extent. -/
def gssBuffer (filt : FiltOctave) (s : Nat) : List Nat :=
  (List.range (filt.width * filt.height)).map (fun i => filt.plane s i % 256)

/-- The snapshot file `save_gss` writes for level `s` on the success path:
derived name = base name plus `"_<octave>_<level>"` suffix, resolved
against the sink's pattern, with the octave's PGM header and the narrowed
plane. -/
def gssFileFor (filt : FiltOctave) (pat b : String) (pim : VlPgmImage)
    (s : Nat) : GssFile :=
  { derived := gssLevelName b filt.o_cur s,
    resolved := resolveName pat (gssLevelName b filt.o_cur s),
    pim := pim,
    data := gssBuffer filt s }

/-- The sink events of one successful level: opened at the per-level
resolved name, then closed. -/
def gssEventsFor (filt : FiltOctave) (pat b : String) (s : Nat) :
    List GssEvent :=
  [GssEvent.opened (resolveName pat (gssLevelName b filt.o_cur s)),
   GssEvent.closed]

theorem saveGssLevels_ok (filt : FiltOctave) (env : GssEnv) (b : String)
    (pim : VlPgmImage) (pat : String) (ls : List Nat) (acc : SaveGssOut)
    (ha : acc.fm.active = true) (hpat : acc.fm.pattern = pat)
    (hof : ∀ s ∈ ls, env.openFail s = false)
    (hie : ∀ s ∈ ls, env.insertErr s = VlErr.ok)
    (hlen : ∀ s ∈ ls,
      (resolveName pat (gssLevelName b filt.o_cur s)).length < 1024) :
    (saveGssLevels filt env b pim ls acc).files =
        acc.files ++ ls.map (gssFileFor filt pat b pim) ∧
      (saveGssLevels filt env b pim ls acc).events =
        acc.events ++ ls.flatMap (gssEventsFor filt pat b) ++
          [GssEvent.closed] ∧
      (saveGssLevels filt env b pim ls acc).ret = none := by
  induction ls generalizing acc with
  | nil => simp [saveGssLevels, saveGssQuit]
  | cons s rest ih =>
    have ho : env.openFail s = false := hof s (by simp)
    have hi : env.insertErr s = VlErr.ok := hie s (by simp)
    have hl : (resolveName pat (gssLevelName b filt.o_cur s)).length < 1024 :=
      hlen s (by simp)
    rw [← hpat] at hl
    simp only [saveGssLevels, ho,
      open_ok_active acc.fm (gssLevelName b filt.o_cur s) ha hl, hi,
      ne_eq, not_true_eq_false, if_false, ite_false, reduceIte]
    obtain ⟨f1, f2, f3⟩ := ih
      { files := acc.files ++
          [{ derived := gssLevelName b filt.o_cur s,
             resolved := resolveName acc.fm.pattern (gssLevelName b filt.o_cur s),
             pim := pim,
             data := (List.range (filt.width * filt.height)).map
               (fun i => filt.plane s i % 256) }],
        events := (acc.events ++
          [GssEvent.opened (resolveName acc.fm.pattern
            (gssLevelName b filt.o_cur s))]) ++ [GssEvent.closed],
        fm := vl_file_meta_close
          { acc.fm with name := resolveName acc.fm.pattern (gssLevelName b filt.o_cur s),
                        file := true },
        allocated := acc.allocated, errAtQuit := some VlErr.ok,
        ret := acc.ret }
      (by simp [vl_file_meta_close, ha])
      (by simp [vl_file_meta_close, hpat])
      (fun t ht => hof t (List.mem_cons_of_mem s ht))
      (fun t ht => hie t (List.mem_cons_of_mem s ht))
      (fun t ht => hlen t (List.mem_cons_of_mem s ht))
    refine ⟨?_, ?_, ?_⟩
    · rw [f1]
      simp [gssFileFor, gssBuffer, hpat]
    · rw [f2]
      simp [gssEventsFor, hpat]
    · exact f3

theorem strTake_eq_self (s : String) (n : Nat) (h : s.length ≤ n) :
    strTake s n = s := by
  cases s with
  | mk l =>
    show String.mk (l.take n) = String.mk l
    exact congrArg String.mk (List.take_of_length_le h)

/-- C8: with an active gss sink and no external failure, snapshotting one
octave writes exactly `S` files, one per level `s ∈ [0, S)`: the name
handed to the per-level sink open is the base name extended with the
fixed-width zero-padded `"_<octave>_<level>"` suffix carrying the current
octave index and `s` (exactly, whenever it fits the name buffer), the file
holds the octave's width-by-height plane narrowed sample-wise to 8 bits
under the octave's PGM header, and the sink is opened before and closed
after each file. -/
theorem c8_snapshot_writes_S_files (filt : FiltOctave) (fm : VlFileMeta)
    (b : String) (env : GssEnv) (ha : fm.active = true)
    (hal : env.allocOk = true) (hb : b.length < 1024)
    (hof : ∀ s < filt.S, env.openFail s = false)
    (hie : ∀ s < filt.S, env.insertErr s = VlErr.ok)
    (hlen : ∀ s < filt.S,
      (resolveName fm.pattern (gssLevelName b filt.o_cur s)).length < 1024) :
    (save_gss filt fm b env).files =
        (List.range filt.S).map (gssFileFor filt fm.pattern b
          { width := filt.width, height := filt.height, maxValue := 255,
            isRaw := true }) ∧
      (save_gss filt fm b env).files.length = filt.S ∧
      (save_gss filt fm b env).events =
        (List.range filt.S).flatMap (gssEventsFor filt fm.pattern b) ++
          [GssEvent.closed] ∧
      (∀ s, (b ++ gssSuffix filt.o_cur s).length ≤ 1023 →
        gssLevelName b filt.o_cur s = b ++ gssSuffix filt.o_cur s) := by
  have hmain := saveGssLevels_ok filt env b
    { width := filt.width, height := filt.height, maxValue := 255,
      isRaw := true } fm.pattern (List.range filt.S)
    { files := [], events := [], fm := fm, allocated := true,
      errAtQuit := none, ret := none }
    ha rfl (fun s hs => hof s (List.mem_range.mp hs))
    (fun s hs => hie s (List.mem_range.mp hs))
    (fun s hs => hlen s (List.mem_range.mp hs))
  have hsg : save_gss filt fm b env =
      saveGssLevels filt env b
        { width := filt.width, height := filt.height, maxValue := 255,
          isRaw := true } (List.range filt.S)
        { files := [], events := [], fm := fm, allocated := true,
          errAtQuit := none, ret := none } := by
    simp [save_gss, ha, hal, Nat.not_le.mpr hb]
  refine ⟨?_, ?_, ?_, ?_⟩
  · rw [hsg, hmain.1]
    simp
  · rw [hsg, hmain.1]
    simp
  · rw [hsg, hmain.2.1]
    simp
  · intro s hs
    exact strTake_eq_self _ _ hs

/-- Closed witness for `c8_snapshot_writes_S_files`: a 2-by-2 octave with
`S = 2` at octave index `-1` (the default first octave) produces exactly
the two expected snapshot files and the open/close event sequence. -/
theorem c8_snapshot_writes_S_files_witness :
    (save_gss
        { S := 2, o_cur := -1, width := 2, height := 2,
          plane := fun s i => s * 300 + i, keys := [],
          orients := fun _ => [], descrOf := fun _ _ _ => 0 }
        { active := true, pattern := "%.pgm", protocol := Protocol.ascii,
          name := "", file := false }
        ("img")
        { allocOk := true, openFail := fun _ => false,
          insertErr := fun _ => VlErr.ok }).files =
      [{ derived := "img_-1_000", resolved := "img_-1_000.pgm",
         pim := { width := 2, height := 2, maxValue := 255, isRaw := true },
         data := [0, 1, 2, 3] },
       { derived := "img_-1_001", resolved := "img_-1_001.pgm",
         pim := { width := 2, height := 2, maxValue := 255, isRaw := true },
         data := [44, 45, 46, 47] }] := by
  have h := c8_snapshot_writes_S_files
    { S := 2, o_cur := -1, width := 2, height := 2,
      plane := fun s i => s * 300 + i, keys := [],
      orients := fun _ => [], descrOf := fun _ _ _ => 0 }
    { active := true, pattern := "%.pgm", protocol := Protocol.ascii,
      name := "", file := false }
    ("img")
    { allocOk := true, openFail := fun _ => false,
      insertErr := fun _ => VlErr.ok }
    rfl rfl (by decide) (fun _ _ => rfl) (fun _ _ => rfl) (by decide)
  rw [h.1]
  decide

/-- C1: every frames record of one detection pass carries the x, y and
sigma of the FIRST keypoint of that pass's keypoint list, paired with the
current orientation's angle: the emitted stream is exactly one record per
(keypoint, orientation) pair, all of them bearing the first keypoint's
coordinates, never the coordinates of the keypoint currently iterated. -/
theorem c1_frames_use_first_keypoint (p : FiltOctave) (k0 : VlSiftKeypoint)
    (h : p.keys.head? = some k0) :
    emitFrames p =
        p.keys.flatMap (fun k => (p.orients k).map (fun a =>
          { x := k0.x, y := k0.y, sigma := k0.sigma, angle := a })) ∧
      ∀ r ∈ emitFrames p,
        r.x = k0.x ∧ r.y = k0.y ∧ r.sigma = k0.sigma := by
  cases hk : p.keys with
  | nil =>
    rw [hk] at h
    simp at h
  | cons k rest =>
    rw [hk] at h
    have hk0 : k = k0 := by simpa using h
    subst hk0
    constructor
    · simp only [emitFrames, hk]
    · intro r hr
      simp only [emitFrames, hk] at hr
      obtain ⟨k1, _, hm⟩ := List.mem_flatMap.mp hr
      obtain ⟨a, _, hra⟩ := List.mem_map.mp hm
      rw [← hra]
      exact ⟨rfl, rfl, rfl⟩

/-- A concrete two-keypoint detection pass used by closed witnesses. -/
def passFix : FiltOctave :=
  { S := 3, o_cur := 0, width := 4, height := 4,
    plane := fun _ _ => 0,
    keys := [{ x := 1, y := 2, sigma := 3 }, { x := 4, y := 5, sigma := 6 }],
    orients := fun k => if k.x = 1 then [10, 11] else [20],
    descrOf := fun _ _ _ => 0 }

/-- Closed witness for `c1_frames_use_first_keypoint`: a pass with two
keypoints emits all three records with the first keypoint's coordinates
(1, 2, 3), including the record of the second keypoint's orientation. -/
theorem c1_frames_use_first_keypoint_witness :
    emitFrames passFix =
      [{ x := 1, y := 2, sigma := 3, angle := 10 },
       { x := 1, y := 2, sigma := 3, angle := 11 },
       { x := 1, y := 2, sigma := 3, angle := 20 }] := by
  rw [(c1_frames_use_first_keypoint passFix { x := 1, y := 2, sigma := 3 }
    rfl).1]
  decide

theorem flatMap_ite {α β : Type} (c : Bool) (ps : List α) (f : α → List β) :
    (ps.flatMap (fun p => if c then f p else [])) =
      if c then ps.flatMap f else [] := by
  cases c <;> simp

theorem LoopAcc.ext_of (a b : LoopAcc) (h1 : a.frames = b.frames)
    (h2 : a.descrs = b.descrs) (h3 : a.gssFiles = b.gssFiles)
    (h4 : a.gssEvents = b.gssEvents) (h5 : a.gss = b.gss) : a = b := by
  cases a
  cases b
  simp only at h1 h2 h3 h4 h5
  rw [h1, h2, h3, h4, h5]

/-- With the gss sink inactive, the octave loop from an empty accumulator
produces exactly the guarded frame/descriptor streams and exits normally. -/
theorem octaveLoop_emptyAcc_inactive (b : String) (fA dA : Bool)
    (ge : Nat → GssEnv) (garb : Nat → VlErr) (se : VlErr)
    (ps : List FiltOctave) (i : Nat) (g : VlFileMeta)
    (hg : g.active = false) :
    octaveLoop b fA dA ge garb se ps i (emptyAcc g) =
      ({ frames := if fA then ps.flatMap emitFrames else [],
         descrs := if dA then ps.flatMap emitDescrs else [],
         gssFiles := [], gssEvents := [], gss := g }, VlErr.ok, none) := by
  rw [octaveLoop_gss_inactive b fA dA ge garb se ps i (emptyAcc g) hg]
  obtain ⟨f1, f2, f3, f4, f5⟩ := foldl_detectEmit_fields fA dA ps (emptyAcc g)
  refine congrArg (fun a => (a, VlErr.ok, none)) ?_
  refine LoopAcc.ext_of _ _ ?_ ?_ ?_ ?_ ?_
  · rw [f1, flatMap_ite]
    simp [emptyAcc]
  · rw [f2, flatMap_ite]
    simp [emptyAcc]
  · rw [f3]
    simp [emptyAcc]
  · rw [f4]
    simp [emptyAcc]
  · rw [f5]
    simp [emptyAcc]

/-- External conditions under which one image's processing runs to
completion: the basename fits, the input opens, no sink open fails, the
resolved primary sink names fit the path buffer, the PGM header and body
parse, the buffers and the SIFT filter allocate. -/
@[reducible]
def SetupOk (frm dsc met : VlFileMeta) (env : ImageEnv) : Prop :=
  env.basenameOver = false ∧ env.inOpens = true ∧
    env.dscIoFail = false ∧ env.frmIoFail = false ∧ env.metIoFail = false ∧
    (resolveName dsc.pattern env.basename).length < 1024 ∧
    (resolveName frm.pattern env.basename).length < 1024 ∧
    (resolveName met.pattern env.basename).length < 1024 ∧
    env.headOk = true ∧ env.dataOk = true ∧ env.fdataOk = true ∧
    env.bodyErr = VlErr.ok ∧ env.filtOk = true

/-- Full characterization of a successfully processed image with the gss
sink inactive: no error, the frame/descriptor streams guarded by their
sinks' active flags, no gss output, the meta block present only for an
active meta sink and mentioning only active sinks, and each primary sink's
file created only when that sink is active. -/
theorem processImage_success_spec (name : String)
    (frm dsc met gss : VlFileMeta) (env : ImageEnv)
    (h : SetupOk frm dsc met env) (hg : gss.active = false) :
    (processImage name frm dsc met gss env).err = VlErr.ok ∧
      (processImage name frm dsc met gss env).errMsg = none ∧
      (processImage name frm dsc met gss env).frames =
        (if frm.active then env.passes.flatMap emitFrames else []) ∧
      (processImage name frm dsc met gss env).descrs =
        (if dsc.active then env.passes.flatMap emitDescrs else []) ∧
      (processImage name frm dsc met gss env).gssFiles = [] ∧
      (processImage name frm dsc met gss env).gssEvents = [] ∧
      (processImage name frm dsc met gss env).meta =
        (if met.active then
          some { input := name,
                 descrName := if dsc.active then
                   some (resolveName dsc.pattern env.basename) else none,
                 frameName := if frm.active then
                   some (resolveName frm.pattern env.basename) else none }
         else none) ∧
      (processImage name frm dsc met gss env).dscOpened =
        (if dsc.active then some (resolveName dsc.pattern env.basename)
         else none) ∧
      (processImage name frm dsc met gss env).frmOpened =
        (if frm.active then some (resolveName frm.pattern env.basename)
         else none) ∧
      (processImage name frm dsc met gss env).metOpened =
        (if met.active then some (resolveName met.pattern env.basename)
         else none) := by
  obtain ⟨h1, h2, h3, h4, h5, h6, h7, h8, h9, h10, h11, h12, h13⟩ := h
  have ed := open_ok_of_good dsc env.basename h6
  have ef := open_ok_of_good frm env.basename h7
  have em := open_ok_of_good met env.basename h8
  by_cases hfa : frm.active = true <;> by_cases hda : dsc.active = true <;>
    by_cases hma : met.active = true <;>
    simp [processImage, openSinks, readAndFilter, runOctaves, mkOut,
      openedFile, h1, h2, h3, h4, h5, h9, h10, h11, h12, h13,
      ed, ef, em, hfa, hda, hma, hg, octaveLoop_emptyAcc_inactive]

/-- A concrete per-image environment in which every external step succeeds,
the detector yields no octave pass, and the advance call fails with
`VL_ERR_ALLOC` — a detector failure that is not the "no more octaves"
signal. -/
def envFixC3 : ImageEnv :=
  { basenameOver := false, basename := "img", inOpens := true,
    dscIoFail := false, frmIoFail := false, metIoFail := false,
    headOk := true, dataOk := true, fdataOk := true, bodyErr := VlErr.ok,
    filtOk := true, passes := [], stopErr := VlErr.alloc,
    gssEnv := fun _ =>
      { allocOk := true, openFail := fun _ => false,
        insertErr := fun _ => VlErr.ok },
    gssGarbage := fun _ => VlErr.ok }

/-- Counterexample to C3 as stated: a detector octave-advance failure other
than the "no more octaves" signal (`VL_ERR_ALLOC`) is NOT fatal to the
image — the driver executes `if (err) { err = VL_ERR_OK ; break ; }` for
every nonzero advance error, so the image ends with the error code cleared
and no diagnostic recorded. -/
theorem c3_detector_failure_not_fatal_counterexample :
    envFixC3.stopErr = VlErr.alloc ∧
      (processImage ("a.pgm") frm0 dsc0 met0 gss0 envFixC3).err = VlErr.ok ∧
      (processImage ("a.pgm") frm0 dsc0 met0 gss0 envFixC3).errMsg = none := by
  refine ⟨rfl, ?_, ?_⟩ <;> decide

/-- C3 (amended): in the octave-advance step, the detector's "no more
octaves" signal and the first-octave "image too small" signal lead to
normal termination with the error code cleared and are never reported as
errors; moreover EVERY detector octave-advance failure — not only these
signals — is handled identically: the driver clears the error and
terminates the image normally, so no advance failure is recorded as the
image's error. -/
theorem c3_octave_advance_errors_cleared (name : String)
    (frm dsc met gss : VlFileMeta) (env : ImageEnv)
    (h : SetupOk frm dsc met env) (hg : gss.active = false)
    (hstop : env.stopErr ≠ VlErr.ok) :
    (processImage name frm dsc met gss env).err = VlErr.ok ∧
      (processImage name frm dsc met gss env).errMsg = none := by
  have hs := processImage_success_spec name frm dsc met gss env h hg
  exact ⟨hs.1, hs.2.1⟩

/-- Closed witness for `c3_octave_advance_errors_cleared` at the concrete
environment whose advance call fails with `VL_ERR_ALLOC`. -/
theorem c3_octave_advance_errors_cleared_witness :
    SetupOk frm0 dsc0 met0 envFixC3 ∧ gss0.active = false ∧
      envFixC3.stopErr ≠ VlErr.ok ∧
      ((processImage ("b.pgm") frm0 dsc0 met0 gss0 envFixC3).err = VlErr.ok ∧
        (processImage ("b.pgm") frm0 dsc0 met0 gss0 envFixC3).errMsg =
          none) :=
  ⟨by decide, rfl, by decide,
    c3_octave_advance_errors_cleared ("b.pgm") frm0 dsc0 met0 gss0 envFixC3
      (by decide) rfl (by decide)⟩

/-- The total orientation count of one detection pass: the sum over the
pass's keypoints of the number of orientations the detector assigns. -/
def orientTotal (p : FiltOctave) : Nat :=
  (p.keys.map (fun k => (p.orients k).length)).sum

theorem emitFrames_length (p : FiltOctave) :
    (emitFrames p).length = orientTotal p := by
  cases hk : p.keys with
  | nil => simp [emitFrames, hk, orientTotal]
  | cons k rest =>
    simp [emitFrames, hk, orientTotal, List.length_flatMap,
      Function.comp_def]

theorem emitDescrs_length (p : FiltOctave) :
    (emitDescrs p).length = orientTotal p := by
  simp only [emitDescrs, orientTotal, List.length_flatMap,
    Function.comp_def, List.length_map]

/-- C7: for an image processed to completion, the frames and descriptors
streams each contain exactly one record per (keypoint, orientation) pair of
each octave's detection pass, each stream emitted independently and only if
its sink is active; with the descriptors sink active the descriptors line
count equals the sum over all detected keypoints across all octaves of that
keypoint's orientation count, and an inactive frames sink receives no
records and creates no file. -/
theorem c7_one_record_per_pair (name : String) (frm dsc met gss : VlFileMeta)
    (env : ImageEnv) (h : SetupOk frm dsc met env)
    (hg : gss.active = false) :
    (processImage name frm dsc met gss env).frames =
        (if frm.active then env.passes.flatMap emitFrames else []) ∧
      (processImage name frm dsc met gss env).descrs =
        (if dsc.active then env.passes.flatMap emitDescrs else []) ∧
      (∀ p, (emitFrames p).length = orientTotal p ∧
        (emitDescrs p).length = orientTotal p) ∧
      (dsc.active = true →
        (processImage name frm dsc met gss env).descrs.length =
          (env.passes.map orientTotal).sum) ∧
      (frm.active = false →
        (processImage name frm dsc met gss env).frames = [] ∧
          (processImage name frm dsc met gss env).frmOpened = none) := by
  have hs := processImage_success_spec name frm dsc met gss env h hg
  refine ⟨hs.2.2.1, hs.2.2.2.1, ?_, ?_, ?_⟩
  · exact fun p => ⟨emitFrames_length p, emitDescrs_length p⟩
  · intro hda
    rw [hs.2.2.2.1, if_pos hda, List.length_flatMap]
    congr 1
    exact List.map_congr_left (fun p _ => emitDescrs_length p)
  · intro hfa
    constructor
    · rw [hs.2.2.1, if_neg (by simp [hfa])]
    · rw [hs.2.2.2.2.2.2.2.2.1, if_neg (by simp [hfa])]

/-- The frames sink switched off, as by omitting frames output. -/
def frmOff : VlFileMeta := { frm0 with active := false }

/-- The descriptors sink switched on, as by passing the descriptors
option. -/
def dscOn : VlFileMeta := { dsc0 with active := true }

/-- A concrete successful environment with one two-keypoint pass, used by
closed witnesses. -/
def envFixPass : ImageEnv :=
  { basenameOver := false, basename := "img", inOpens := true,
    dscIoFail := false, frmIoFail := false, metIoFail := false,
    headOk := true, dataOk := true, fdataOk := true, bodyErr := VlErr.ok,
    filtOk := true, passes := [passFix], stopErr := VlErr.eof,
    gssEnv := fun _ =>
      { allocOk := true, openFail := fun _ => false,
        insertErr := fun _ => VlErr.ok },
    gssGarbage := fun _ => VlErr.ok }

/-- Closed witness for `c7_one_record_per_pair`: with only the descriptors
sink active and a pass of two keypoints carrying two and one orientations,
the descriptors stream has exactly three records and the inactive frames
sink receives nothing and creates no file. -/
theorem c7_one_record_per_pair_witness :
    SetupOk frmOff dscOn met0 envFixPass ∧ gss0.active = false ∧
      dscOn.active = true ∧ frmOff.active = false ∧
      (processImage ("a.pgm") frmOff dscOn met0 gss0 envFixPass).descrs.length =
        (envFixPass.passes.map orientTotal).sum ∧
      (processImage ("a.pgm") frmOff dscOn met0 gss0 envFixPass).frames = [] ∧
      (processImage ("a.pgm") frmOff dscOn met0 gss0 envFixPass).frmOpened =
        none ∧
      (envFixPass.passes.map orientTotal).sum = 3 := by
  have hc := c7_one_record_per_pair ("a.pgm") frmOff dscOn met0 gss0
    envFixPass (by decide) rfl
  refine ⟨by decide, rfl, rfl, rfl, hc.2.2.2.1 rfl, (hc.2.2.2.2 rfl).1,
    (hc.2.2.2.2 rfl).2, by decide⟩

/-- C10: before any option is parsed, the frames sink is active with the
`"%.frame"` pattern and the ASCII protocol, while the descriptors, meta,
gss and read-frames sinks are inactive; consequently a run with no
sink-related flag produces frames output only — the frames stream is
emitted and its file created, while no descriptors, meta or gss output of
any kind is produced. -/
theorem c10_default_sinks (name : String) (env : ImageEnv)
    (h : SetupOk frm0 dsc0 met0 env) :
    frm0.active = true ∧ frm0.pattern = "%.frame" ∧
      frm0.protocol = Protocol.ascii ∧ dsc0.active = false ∧
      met0.active = false ∧ gss0.active = false ∧ ifr0.active = false ∧
      (processImage name frm0 dsc0 met0 gss0 env).err = VlErr.ok ∧
      (processImage name frm0 dsc0 met0 gss0 env).frames =
        env.passes.flatMap emitFrames ∧
      (processImage name frm0 dsc0 met0 gss0 env).frmOpened =
        some (resolveName ("%.frame") env.basename) ∧
      (processImage name frm0 dsc0 met0 gss0 env).descrs = [] ∧
      (processImage name frm0 dsc0 met0 gss0 env).meta = none ∧
      (processImage name frm0 dsc0 met0 gss0 env).gssFiles = [] ∧
      (processImage name frm0 dsc0 met0 gss0 env).gssEvents = [] ∧
      (processImage name frm0 dsc0 met0 gss0 env).dscOpened = none ∧
      (processImage name frm0 dsc0 met0 gss0 env).metOpened = none := by
  have hs := processImage_success_spec name frm0 dsc0 met0 gss0 env h rfl
  refine ⟨rfl, rfl, rfl, rfl, rfl, rfl, rfl, hs.1, ?_, ?_, ?_, ?_,
    hs.2.2.2.2.1, hs.2.2.2.2.2.1, ?_, ?_⟩
  · rw [hs.2.2.1]
    rfl
  · rw [hs.2.2.2.2.2.2.2.2.1]
    rfl
  · rw [hs.2.2.2.1]
    rfl
  · rw [hs.2.2.2.2.2.2.1]
    rfl
  · rw [hs.2.2.2.2.2.2.2.1]
    rfl
  · rw [hs.2.2.2.2.2.2.2.2.2]
    rfl

/-- Closed witness for `c10_default_sinks` at the concrete successful
one-pass environment: the default sinks produce three frames records, the
frames file `img.frame`, and nothing else. -/
theorem c10_default_sinks_witness :
    SetupOk frm0 dsc0 met0 envFixPass ∧
      ((processImage ("a.pgm") frm0 dsc0 met0 gss0 envFixPass).frames.length =
          3 ∧
        (processImage ("a.pgm") frm0 dsc0 met0 gss0 envFixPass).frmOpened =
          some ("img.frame") ∧
        (processImage ("a.pgm") frm0 dsc0 met0 gss0 envFixPass).descrs = [] ∧
        (processImage ("a.pgm") frm0 dsc0 met0 gss0 envFixPass).meta =
          none) := by
  have hc := c10_default_sinks ("a.pgm") envFixPass (by decide)
  refine ⟨by decide, ?_, ?_, hc.2.2.2.2.2.2.2.2.2.2.1, hc.2.2.2.2.2.2.2.2.2.2.2.1⟩
  · rw [hc.2.2.2.2.2.2.2.2.1]
    decide
  · rw [hc.2.2.2.2.2.2.2.2.2.1]
    decide

theorem runBatch_length (imgs : List (String × ImageEnv)) :
    ∀ frm dsc met gss ec,
      (runBatch frm dsc met gss ec imgs).results.length = imgs.length := by
  induction imgs with
  | nil =>
    intro frm dsc met gss ec
    simp [runBatch]
  | cons hd rest ih =>
    intro frm dsc met gss ec
    obtain ⟨name, env⟩ := hd
    simp [runBatch, ih]

theorem runBatch_exit (imgs : List (String × ImageEnv)) :
    ∀ frm dsc met gss ec,
      (runBatch frm dsc met gss ec imgs).exit_code =
        if (runBatch frm dsc met gss ec imgs).results.all
          (fun r => r.err == VlErr.ok) then ec else 1 := by
  induction imgs with
  | nil =>
    intro frm dsc met gss ec
    simp [runBatch]
  | cons hd rest ih =>
    intro frm dsc met gss ec
    obtain ⟨name, env⟩ := hd
    simp only [runBatch, List.all_cons]
    by_cases hre : (processImage name frm dsc met gss env).err = VlErr.ok
    · simp only [hre, ne_eq, not_true_eq_false, if_false, reduceIte,
        beq_self_eq_true, Bool.true_and]
      exact ih _ _ _ _ ec
    · have hb : ((processImage name frm dsc met gss env).err ==
          VlErr.ok) = false := by
        simp [hre]
      simp only [hre, ne_eq, not_false_eq_true, if_true, reduceIte, hb,
        Bool.false_and, if_false]
      rw [ih]
      split <;> rfl

theorem runBatch_stderr (imgs : List (String × ImageEnv)) :
    ∀ frm dsc met gss ec,
      (runBatch frm dsc met gss ec imgs).stderrLines =
        (runBatch frm dsc met gss ec imgs).results.filterMap
          (fun r => if r.err ≠ VlErr.ok then
            some (diagLine (r.errMsg.getD ("")) r.err) else none) := by
  induction imgs with
  | nil =>
    intro frm dsc met gss ec
    simp [runBatch]
  | cons hd rest ih =>
    intro frm dsc met gss ec
    obtain ⟨name, env⟩ := hd
    simp only [runBatch, List.filterMap_cons]
    by_cases hre : (processImage name frm dsc met gss env).err = VlErr.ok
    · simp only [hre, ne_eq, not_true_eq_false, if_false, reduceIte,
        List.nil_append]
      exact ih _ _ _ _ _
    · simp only [hre, ne_eq, not_false_eq_true, if_true, reduceIte,
        List.singleton_append, List.cons_append, List.nil_append]
      rw [ih]

/-- C4: the batch loop processes every input image (a fatal per-image
error aborts only that image), prints exactly one diagnostic line per
failed image carrying that image's error message, and the process exit
status is 0 if and only if every image succeeded — and 1 if and only if at
least one image failed. -/
theorem c4_exit_status_and_isolation (frm dsc met gss : VlFileMeta)
    (imgs : List (String × ImageEnv)) :
    (runBatch frm dsc met gss 0 imgs).results.length = imgs.length ∧
      ((runBatch frm dsc met gss 0 imgs).exit_code = 0 ↔
        ∀ r ∈ (runBatch frm dsc met gss 0 imgs).results, r.err = VlErr.ok) ∧
      ((runBatch frm dsc met gss 0 imgs).exit_code = 1 ↔
        ∃ r ∈ (runBatch frm dsc met gss 0 imgs).results,
          r.err ≠ VlErr.ok) ∧
      (runBatch frm dsc met gss 0 imgs).stderrLines =
        (runBatch frm dsc met gss 0 imgs).results.filterMap
          (fun r => if r.err ≠ VlErr.ok then
            some (diagLine (r.errMsg.getD ("")) r.err) else none) := by
  have he := runBatch_exit imgs frm dsc met gss 0
  refine ⟨runBatch_length imgs frm dsc met gss 0, ?_, ?_,
    runBatch_stderr imgs frm dsc met gss 0⟩
  · rw [he]
    split
    · rename_i hall
      simp only [List.all_eq_true, beq_iff_eq] at hall
      exact ⟨fun _ => hall, fun _ => rfl⟩
    · rename_i hall
      simp only [List.all_eq_true, beq_iff_eq] at hall
      push_neg at hall
      constructor
      · intro h0
        exact absurd h0 (by decide)
      · intro h
        obtain ⟨r, hr, hne⟩ := hall
        exact absurd (h r hr) hne
  · rw [he]
    split
    · rename_i hall
      simp only [List.all_eq_true, beq_iff_eq] at hall
      constructor
      · intro h1
        exact absurd h1 (by decide)
      · intro h
        obtain ⟨r, hr, hne⟩ := h
        exact absurd (hall r hr) hne
    · rename_i hall
      simp only [List.all_eq_true, beq_iff_eq] at hall
      push_neg at hall
      simpa using hall

/-- C9: when the `--meta` option's specification parses to a sink whose
protocol is not ASCII, option handling raises a configuration error: the
process prints the "meta file supports only ASCII protocol" diagnostic and
exits with code 1 before any input image is processed. -/
theorem c9_meta_requires_ascii (arg : Option String) (met1 : VlFileMeta)
    (imgs : List (String × ImageEnv))
    (hp : vl_file_meta_parse met0 arg = Except.ok met1)
    (hproto : met1.protocol ≠ Protocol.ascii) :
    (mainWithMetaOpt (some arg) imgs).exit_code = 1 ∧
      (mainWithMetaOpt (some arg) imgs).imagesProcessed = 0 ∧
      (mainWithMetaOpt (some arg) imgs).stderrLines =
        [("sift: error: meta file supports only ASCII protocol")] := by
  simp [mainWithMetaOpt, hp, hproto]

/-- Closed witness for `c9_meta_requires_ascii`: the specification
`bin://%.meta` parses to a binary-protocol meta sink, and the run exits
with code 1 having processed none of its input images. -/
theorem c9_meta_requires_ascii_witness :
    vl_file_meta_parse met0 (some ("bin://%.meta")) =
        Except.ok { active := true, pattern := "%.meta",
                    protocol := Protocol.binary, name := "", file := false } ∧
      ({ active := true, pattern := "%.meta", protocol := Protocol.binary,
         name := "", file := false } : VlFileMeta).protocol ≠
        Protocol.ascii ∧
      ((mainWithMetaOpt (some (some ("bin://%.meta")))
          [(("a.pgm"), envFixPass)]).exit_code = 1 ∧
        (mainWithMetaOpt (some (some ("bin://%.meta")))
          [(("a.pgm"), envFixPass)]).imagesProcessed = 0) := by
  refine ⟨rfl, by decide, ?_⟩
  have h := c9_meta_requires_ascii (some ("bin://%.meta"))
    { active := true, pattern := "%.meta", protocol := Protocol.binary,
      name := "", file := false }
    [(("a.pgm"), envFixPass)] rfl (by decide)
  exact ⟨h.1, h.2.1⟩

/-- The inactive-sink guarantees of one image's result, relative to the
active flags the four sinks had when the image began: an inactive frames /
descriptors sink receives no record and creates no file, an inactive meta
sink produces no meta block, the meta block never mentions an inactive
sink, an inactive gss sink sees no snapshot file and no open/close event,
and the cleanup preserves every sink's active flag for the next image. -/
def SinkGuards (fa da ma ga : Bool) (r : ImageOut) : Prop :=
  (fa = false → r.frames = [] ∧ r.frmOpened = none) ∧
    (da = false → r.descrs = [] ∧ r.dscOpened = none) ∧
    (ma = false → r.meta = none ∧ r.metOpened = none) ∧
    (∀ mb, r.meta = some mb →
      (fa = false → mb.frameName = none) ∧
        (da = false → mb.descrName = none)) ∧
    (ga = false → r.gssFiles = [] ∧ r.gssEvents = []) ∧
    r.final.frm.active = fa ∧ r.final.dsc.active = da ∧
    r.final.met.active = ma ∧ r.final.gss.active = ga

theorem mkOut_guards_err (st : ProcState) (e : VlErr) (msg : Option String)
    (g : VlFileMeta) (dscO frmO metO : Option String)
    (hd : st.dsc.active = false → dscO = none)
    (hf : st.frm.active = false → frmO = none)
    (hm : st.met.active = false → metO = none) :
    SinkGuards st.frm.active st.dsc.active st.met.active st.gss.active
      (mkOut st e msg (emptyAcc g) none dscO frmO metO) := by
  refine ⟨?_, ?_, ?_, ?_, ?_, ?_, ?_, ?_, ?_⟩
  · intro hfa
    simp [mkOut, emptyAcc, hf hfa]
  · intro hda
    simp [mkOut, emptyAcc, hd hda]
  · intro hma
    simp [mkOut, emptyAcc, hm hma]
  · intro mb hmb
    simp [mkOut] at hmb
  · intro _
    simp [mkOut, emptyAcc]
  · simp [mkOut, doneCleanup, close_active]
  · simp [mkOut, doneCleanup, close_active]
  · simp [mkOut, doneCleanup, close_active]
  · simp [mkOut, doneCleanup, close_active]

theorem runOctaves_guards (name : String) (st : ProcState) (env : ImageEnv)
    (dscO frmO metO : Option String)
    (hd : st.dsc.active = false → dscO = none)
    (hf : st.frm.active = false → frmO = none)
    (hm : st.met.active = false → metO = none) :
    SinkGuards st.frm.active st.dsc.active st.met.active st.gss.active
      (runOctaves name st env dscO frmO metO) := by
  simp only [runOctaves]
  split
  · refine ⟨?_, ?_, ?_, ?_, ?_, ?_, ?_, ?_, ?_⟩
    · intro hfa
      rw [hfa] at hf ⊢
      simp [mkOut, octaveLoop_frames_inactive, hf, emptyAcc]
    · intro hda
      rw [hda] at hd ⊢
      simp [mkOut, octaveLoop_descrs_inactive, hd, emptyAcc]
    · intro hma
      simp [mkOut, hm hma]
    · intro mb hmb
      simp [mkOut] at hmb
    · intro hga
      rename_i hcond
      rw [octaveLoop_emptyAcc_inactive _ _ _ _ _ _ _ _ _ hga] at hcond
      simp at hcond
    · simp [mkOut, doneCleanup, close_active]
    · simp [mkOut, doneCleanup, close_active]
    · simp [mkOut, doneCleanup, close_active]
    · simp [mkOut, doneCleanup, close_active, octaveLoop_gss_active,
        emptyAcc]
  · refine ⟨?_, ?_, ?_, ?_, ?_, ?_, ?_, ?_, ?_⟩
    · intro hfa
      rw [hfa] at hf ⊢
      simp [mkOut, octaveLoop_frames_inactive, hf, emptyAcc]
    · intro hda
      rw [hda] at hd ⊢
      simp [mkOut, octaveLoop_descrs_inactive, hd, emptyAcc]
    · intro hma
      simp [mkOut, hma, hm hma]
    · intro mb hmb
      simp only [mkOut] at hmb
      split at hmb
      · simp only [Option.some.injEq] at hmb
        subst hmb
        constructor
        · intro hfa
          simp [hfa]
        · intro hda
          simp [hda]
      · simp at hmb
    · intro hga
      rw [octaveLoop_emptyAcc_inactive _ _ _ _ _ _ _ _ _ hga]
      simp [mkOut]
    · simp [mkOut, doneCleanup, close_active]
    · simp [mkOut, doneCleanup, close_active]
    · simp [mkOut, doneCleanup, close_active]
    · simp [mkOut, doneCleanup, close_active, octaveLoop_gss_active,
        emptyAcc]

theorem sinkGuardsCast (fa da ma ga fa2 da2 ma2 ga2 : Bool) (r : ImageOut)
    (h : SinkGuards fa da ma ga r) (e1 : fa = fa2) (e2 : da = da2)
    (e3 : ma = ma2) (e4 : ga = ga2) : SinkGuards fa2 da2 ma2 ga2 r := by
  subst e1
  subst e2
  subst e3
  subst e4
  exact h

theorem readAndFilter_guards (name : String) (st : ProcState)
    (env : ImageEnv) (dscO frmO metO : Option String)
    (hd : st.dsc.active = false → dscO = none)
    (hf : st.frm.active = false → frmO = none)
    (hm : st.met.active = false → metO = none) :
    SinkGuards st.frm.active st.dsc.active st.met.active st.gss.active
      (readAndFilter name st env dscO frmO metO) := by
  simp only [readAndFilter]
  repeat' split
  all_goals first
    | exact sinkGuardsCast _ _ _ _ _ _ _ _ _
        (mkOut_guards_err _ _ _ _ _ _ _ hd hf hm) rfl rfl rfl rfl
    | exact sinkGuardsCast _ _ _ _ _ _ _ _ _
        (runOctaves_guards _ _ _ _ _ _ hd hf hm) rfl rfl rfl rfl

theorem openSinks_guards (name : String) (st : ProcState) (env : ImageEnv) :
    SinkGuards st.frm.active st.dsc.active st.met.active st.gss.active
      (openSinks name st env) := by
  have ed := open_active_eq st.dsc env.basename env.dscIoFail
  have ef := open_active_eq st.frm env.basename env.frmIoFail
  have em := open_active_eq st.met env.basename env.metIoFail
  have hd1 : (vl_file_meta_open st.dsc env.basename env.dscIoFail).2.active =
      false →
      openedFile st.dsc (vl_file_meta_open st.dsc env.basename env.dscIoFail)
        = none := by
    intro h
    rw [ed] at h
    exact openedFile_inactive _ _ h
  have hf1 : (vl_file_meta_open st.frm env.basename env.frmIoFail).2.active =
      false →
      openedFile st.frm (vl_file_meta_open st.frm env.basename env.frmIoFail)
        = none := by
    intro h
    rw [ef] at h
    exact openedFile_inactive _ _ h
  have hm1 : (vl_file_meta_open st.met env.basename env.metIoFail).2.active =
      false →
      openedFile st.met (vl_file_meta_open st.met env.basename env.metIoFail)
        = none := by
    intro h
    rw [em] at h
    exact openedFile_inactive _ _ h
  simp only [openSinks]
  split
  · exact sinkGuardsCast _ _ _ _ _ _ _ _ _
      (mkOut_guards_err _ _ _ _ _ _ _ hd1 (fun _ => rfl) (fun _ => rfl))
      rfl ed rfl rfl
  · split
    · exact sinkGuardsCast _ _ _ _ _ _ _ _ _
        (mkOut_guards_err _ _ _ _ _ _ _ hd1 (fun _ => rfl) (fun _ => rfl))
        rfl ed rfl rfl
    · split
      · exact sinkGuardsCast _ _ _ _ _ _ _ _ _
          (mkOut_guards_err _ _ _ _ _ _ _ hd1 hf1 (fun _ => rfl))
          ef ed rfl rfl
      · split
        · exact sinkGuardsCast _ _ _ _ _ _ _ _ _
            (mkOut_guards_err _ _ _ _ _ _ _ hd1 hf1 (fun _ => rfl))
            ef ed rfl rfl
        · split
          · exact sinkGuardsCast _ _ _ _ _ _ _ _ _
              (mkOut_guards_err _ _ _ _ _ _ _ hd1 hf1 hm1)
              ef ed em rfl
          · split
            · exact sinkGuardsCast _ _ _ _ _ _ _ _ _
                (mkOut_guards_err _ _ _ _ _ _ _ hd1 hf1 hm1)
                ef ed em rfl
            · exact sinkGuardsCast _ _ _ _ _ _ _ _ _
                (readAndFilter_guards _ _ _ _ _ _ hd1 hf1 hm1)
                ef ed em rfl

theorem processImage_guards (name : String) (frm dsc met gss : VlFileMeta)
    (env : ImageEnv) :
    SinkGuards frm.active dsc.active met.active gss.active
      (processImage name frm dsc met gss env) := by
  simp only [processImage]
  split
  · exact sinkGuardsCast _ _ _ _ _ _ _ _ _
      (mkOut_guards_err _ _ _ _ _ _ _
        (fun _ => rfl) (fun _ => rfl) (fun _ => rfl)) rfl rfl rfl rfl
  · split
    · exact sinkGuardsCast _ _ _ _ _ _ _ _ _
        (mkOut_guards_err _ _ _ _ _ _ _
          (fun _ => rfl) (fun _ => rfl) (fun _ => rfl)) rfl rfl rfl rfl
    · exact sinkGuardsCast _ _ _ _ _ _ _ _ _
        (openSinks_guards name _ env) rfl rfl rfl rfl

/-- C5: a sink whose active flag is false is never opened, never written
and never mentioned in the meta record: opening it is a no-op, snapshotting
with an inactive gss sink performs no allocation and writes no file, and
across every image of every batch an inactive frames/descriptors/meta/gss
sink receives no record, creates no file, is absent from the meta block,
and sees no snapshot activity. -/
theorem c5_inactive_sink_never_touched :
    (∀ fm b i_, fm.active = false →
      vl_file_meta_open fm b i_ = (VlErr.ok, fm)) ∧
      (∀ filt fm b genv, fm.active = false →
        save_gss filt fm b genv =
          { files := [], events := [], fm := fm, allocated := false,
            errAtQuit := none, ret := some VlErr.ok }) ∧
      (∀ frm dsc met gss ec imgs,
        ∀ r ∈ (runBatch frm dsc met gss ec imgs).results,
          SinkGuards frm.active dsc.active met.active gss.active r) := by
  refine ⟨open_inactive,
    fun filt fm b genv h => save_gss_inactive filt fm b genv h, ?_⟩
  intro frm dsc met gss ec imgs
  induction imgs generalizing frm dsc met gss ec with
  | nil =>
    intro r hr
    simp [runBatch] at hr
  | cons hd rest ih =>
    obtain ⟨name, env⟩ := hd
    intro r hr
    simp only [runBatch, List.mem_cons] at hr
    rcases hr with hr | hr
    · subst hr
      exact processImage_guards name frm dsc met gss env
    · have hg := processImage_guards name frm dsc met gss env
      exact sinkGuardsCast _ _ _ _ _ _ _ _ _ (ih _ _ _ _ _ r hr)
        hg.2.2.2.2.2.1 hg.2.2.2.2.2.2.1 hg.2.2.2.2.2.2.2.1
        hg.2.2.2.2.2.2.2.2

/-- A `save_gss` environment in which every external step succeeds. -/
def gssEnvFix : GssEnv :=
  { allocOk := true, openFail := fun _ => false,
    insertErr := fun _ => VlErr.ok }

/-- Closed witness for `c5_inactive_sink_never_touched`: opening the
inactive default gss sink is a no-op, snapshotting through it writes
nothing and allocates nothing, and in a one-image batch with the frames
sink switched off that image's result has no frames record, no frames
file, and no gss activity. -/
theorem c5_inactive_sink_never_touched_witness :
    vl_file_meta_open gss0 ("img") false = (VlErr.ok, gss0) ∧
      save_gss passFix gss0 ("img") gssEnvFix =
        { files := [], events := [], fm := gss0, allocated := false,
          errAtQuit := none, ret := some VlErr.ok } ∧
      (processImage ("a.pgm") frmOff dscOn met0 gss0 envFixPass).frames =
        [] ∧
      (processImage ("a.pgm") frmOff dscOn met0 gss0 envFixPass).frmOpened =
        none ∧
      (processImage ("a.pgm") frmOff dscOn met0 gss0 envFixPass).gssFiles =
        [] ∧
      (processImage ("a.pgm") frmOff dscOn met0 gss0
        envFixPass).gssEvents = [] := by
  have h := c5_inactive_sink_never_touched
  have hm : processImage ("a.pgm") frmOff dscOn met0 gss0 envFixPass ∈
      (runBatch frmOff dscOn met0 gss0 0
        [(("a.pgm"), envFixPass)]).results := by
    simp [runBatch]
  have hg := h.2.2 frmOff dscOn met0 gss0 0 [(("a.pgm"), envFixPass)] _ hm
  exact ⟨h.1 gss0 ("img") false rfl,
    h.2.1 passFix gss0 ("img") gssEnvFix rfl,
    (hg.1 rfl).1, (hg.1 rfl).2, (hg.2.2.2.2.1 rfl).1, (hg.2.2.2.2.1 rfl).2⟩

end SiftDriver
